import Mathlib

/-
Verification of the Sandbox Session Manager (container-manager/main.py) of
ai-proxybridge. The Python module keeps one process-wide dict
`active_containers : container_id -> session info dict` guarded by a lock,
talks to a docker engine through a lazily initialized client, and exposes
FastAPI endpoints for start / exec / stop / extend / list / cleanup.

The shallow embedding below represents:
  - the session table and the engine's container list as association lists
    keyed by strings (Python dicts with unique keys, insertion ordered);
  - wall-clock timestamps as integers (seconds); `datetime.now()` is passed
    in explicitly as a `now` argument;
  - docker engine calls as explicit outcome parameters: each call either
    returns a value or raises one of the exception classes the code
    catches (`PyExc` below), and the endpoint definitions thread those
    outcomes through the same try/except structure as the source;
  - HTTP error responses (`raise HTTPException(status_code=..)`) as
    `Except Nat` with the numeric status code.
-/

set_option autoImplicit false

namespace ContainerManager

abbrev Key := String

/-- Python dict lookup `d.get(k)` on an insertion-ordered association list. -/
def alGet {α : Type} : List (Key × α) → Key → Option α
  | [], _ => none
  | p :: rest, k => if p.1 = k then some p.2 else alGet rest k

/-- Python in-place update of the value stored under a key (no-op when the
key is absent), as performed by `d[k]["field"] = v` on an existing entry. -/
def alModify {α : Type} : List (Key × α) → Key → (α → α) → List (Key × α)
  | [], _, _ => []
  | p :: rest, k, f =>
      if p.1 = k then (p.1, f p.2) :: alModify rest k f
      else p :: alModify rest k f

/-- Python `del d[k]` guarded by a membership check: removes the key,
no-op when absent. -/
def alRemove {α : Type} : List (Key × α) → Key → List (Key × α)
  | [], _ => []
  | p :: rest, k => if p.1 = k then alRemove rest k else p :: alRemove rest k

/-- Python dict assignment `d[k] = v`: replaces the value in place when the
key exists, otherwise appends at the end (insertion order). -/
def alSet {α : Type} (l : List (Key × α)) (k : Key) (v : α) : List (Key × α) :=
  if (alGet l k).isSome then alModify l k (fun _ => v) else l ++ [(k, v)]

/-- Keys of the association list are pairwise distinct, as they are in any
Python dict. -/
def keysNodup {α : Type} (l : List (Key × α)) : Prop :=
  (l.map Prod.fst).Nodup

instance keysNodupDecidable {α : Type} (l : List (Key × α)) :
    Decidable (keysNodup l) :=
  List.nodupDecidable (l.map Prod.fst)

theorem alGet_alModify {α : Type} (l : List (Key × α)) (j k : Key) (f : α → α) :
    alGet (alModify l j f) k = if j = k then (alGet l k).map f else alGet l k := by
  induction l with
  | nil => by_cases h : j = k <;> simp [alModify, alGet, h]
  | cons p rest ih =>
    by_cases hp : p.1 = j
    · by_cases hk : j = k
      · subst hk
        simp [alModify, alGet, hp, ih]
      · have hpk : ¬ p.1 = k := by
          intro h; exact hk (hp ▸ h)
        simp [alModify, alGet, hp, hpk, ih, hk]
    · by_cases hpk : p.1 = k
      · have hk : ¬ j = k := by
          intro h; exact hp (by rw [hpk, h])
        have hkj : ¬ k = j := fun h => hk h.symm
        simp [alModify, alGet, hp, hpk, hk, hkj]
      · simp [alModify, alGet, hp, hpk, ih]

theorem alGet_alRemove {α : Type} (l : List (Key × α)) (j k : Key) :
    alGet (alRemove l j) k = if j = k then none else alGet l k := by
  induction l with
  | nil => by_cases h : j = k <;> simp [alRemove, alGet, h]
  | cons p rest ih =>
    by_cases hp : p.1 = j
    · by_cases hk : j = k
      · subst hk
        simp [alRemove, alGet, hp, ih]
      · have hpk : ¬ p.1 = k := by
          intro h; exact hk (hp ▸ h)
        simp [alRemove, alGet, hp, hpk, ih, hk]
    · by_cases hpk : p.1 = k
      · have hk : ¬ j = k := by
          intro h; exact hp (by rw [hpk, h])
        have hkj : ¬ k = j := fun h => hk h.symm
        simp [alRemove, alGet, hp, hpk, hk, hkj]
      · simp [alRemove, alGet, hp, hpk, ih]

theorem alGet_alRemove_self {α : Type} (l : List (Key × α)) (k : Key) :
    alGet (alRemove l k) k = none := by
  simp [alGet_alRemove]

theorem alGet_append_of_none {α : Type} (l₁ l₂ : List (Key × α)) (k : Key)
    (h : alGet l₁ k = none) : alGet (l₁ ++ l₂) k = alGet l₂ k := by
  induction l₁ with
  | nil => simp
  | cons p rest ih =>
    by_cases hp : p.1 = k
    · simp [alGet, hp] at h
    · simp [alGet, hp] at h ⊢
      exact ih h

theorem alGet_alSet_self {α : Type} (l : List (Key × α)) (k : Key) (v : α) :
    alGet (alSet l k v) k = some v := by
  unfold alSet
  by_cases h : (alGet l k).isSome
  · rcases Option.isSome_iff_exists.mp h with ⟨w, hw⟩
    simp [alGet_alModify, hw]
  · have hnone : alGet l k = none := by
      cases hx : alGet l k with
      | none => rfl
      | some w => rw [hx] at h; simp at h
    simp [h, alGet_append_of_none l [(k, v)] k hnone, alGet]

theorem alGet_mem {α : Type} (l : List (Key × α)) (k : Key) (v : α)
    (h : alGet l k = some v) : (k, v) ∈ l := by
  induction l with
  | nil => simp [alGet] at h
  | cons p rest ih =>
    by_cases hp : p.1 = k
    · simp [alGet, hp] at h
      have hpv : p = (k, v) := by
        cases p with
        | mk a b => simp at hp h ⊢; exact ⟨hp, h⟩
      rw [← hpv]
      exact List.mem_cons_self p rest
    · simp [alGet, hp] at h
      exact List.mem_cons_of_mem _ (ih h)

theorem alGet_of_mem_nodup {α : Type} (l : List (Key × α)) (k : Key) (v : α)
    (hnd : keysNodup l) (hmem : (k, v) ∈ l) : alGet l k = some v := by
  induction l with
  | nil => simp at hmem
  | cons p rest ih =>
    rcases List.mem_cons.mp hmem with heq | htail
    · subst heq
      simp [alGet]
    · have hk : p.1 ≠ k := by
        intro h
        have : p.1 ∈ rest.map Prod.fst := by
          rw [h]
          exact List.mem_map.mpr ⟨(k, v), htail, rfl⟩
        exact (List.nodup_cons.mp hnd).1 this
      have hnd' : keysNodup rest := (List.nodup_cons.mp hnd).2
      simp [alGet, hk]
      exact ih hnd' htail

/-
Configuration constants, main.py lines 33-37.
-/

/-- Truncation bound for stdout/stderr (main.py line 34). -/
def MAX_OUTPUT_LENGTH : Nat := 10000

/-- Default session TTL in seconds (main.py line 35). -/
def DEFAULT_SESSION_TTL : Int := 300

/-- Maximal session TTL in seconds (main.py line 36). -/
def MAX_SESSION_TTL : Int := 3600

/-- Reaper tick period in seconds (main.py line 37). -/
def CLEANUP_INTERVAL : Int := 30

/-
Registry (main.py lines 221-237). A parsed registry document is a map
name -> profile config; only membership and a few option fields matter to
the lifecycle controller.
-/

/-- One profile entry of the registry document. Fields that only shape
docker run options (network mode, memory, cpus, read_only) do not feed any
state the verified claims mention and are kept minimal. -/
structure ContainerConfig where
  image : Option String := none
  description : String := ""
deriving Repr, DecidableEq

/-- Parsed `containers` section of the registry document. -/
abbrev Registry := List (Key × ContainerConfig)

/-- Lookup of a profile in the registry, `get_container_config`
(main.py lines 230-233). -/
def get_container_config (reg : Registry) (name : String) : Option ContainerConfig :=
  alGet reg name

/-- Authorization predicate `is_container_allowed` (main.py lines 235-237):
a name is allowed exactly when the registry has an entry for it. -/
def is_container_allowed (reg : Registry) (name : String) : Bool :=
  (get_container_config reg name).isSome

/-
Session table (main.py lines 170-215). One record per tracked container,
stored in the `active_containers` dict under the container id.
-/

/-- The session info dict built by `container_start` and completed by
`track_container` (main.py lines 173-184 and 396-430). Timestamps are
integer seconds; the source stores ISO strings of `datetime.now()`. -/
structure SessionInfo where
  name : String
  persistent : Bool
  ttl_seconds : Int
  session_id : String
  started_at : Int
  last_activity : Int
  ttyd_enabled : Bool := false
  ttyd_url : Option String := none
deriving Repr, DecidableEq

/-- The `active_containers` dict: container id -> session info. -/
abbrev Table := List (Key × SessionInfo)

/-- Dict assignment performed by `track_container` (main.py lines 173-184);
session_id / started_at / last_activity are already present on the record
passed in by `container_start` in this model, matching the `if .. not in
info` guards. -/
def track_container (tbl : Table) (id : Key) (info : SessionInfo) : Table :=
  alSet tbl id info

/-- The `update_container_activity` helper (main.py lines 186-192): set
`last_activity` to now when the container is tracked, report whether it
was. -/
def update_container_activity (tbl : Table) (id : Key) (now : Int) : Table × Bool :=
  (alModify tbl id (fun r => { r with last_activity := now }), (alGet tbl id).isSome)

/-- The `untrack_container` helper (main.py lines 199-205). -/
def untrack_container (tbl : Table) (id : Key) : Table :=
  alRemove tbl id

/-- The `is_container_tracked` helper (main.py lines 207-210). -/
def is_container_tracked (tbl : Table) (id : Key) : Bool :=
  (alGet tbl id).isSome

/-
Engine model. The docker client is lazily initialized
(main.py lines 147-166): once unavailable it stays unavailable.
The engine holds a set of containers with a docker status each; the
`stopRaises` / `removeRaises` flags model `container.stop()` resp.
`container.remove()` raising `docker.errors.APIError`.
-/

/-- Docker container status as read from `container.status`. -/
inductive CState
  | running
  | exited
  | dead
deriving Repr, DecidableEq

/-- State of the docker engine as visible to the manager. -/
structure Engine where
  avail : Bool := true
  containers : List (Key × CState) := []
  stopRaises : Bool := false
  removeRaises : Bool := false
deriving Repr, DecidableEq

/-- Exception classes distinguished by the except-clauses of the source:
`docker.errors.ImageNotFound`, `docker.errors.NotFound`,
`docker.errors.APIError`, `fastapi.HTTPException`, anything else. -/
inductive PyExc
  | imageNotFound
  | notFound
  | apiError
  | httpExc (status : Nat)
  | other
deriving Repr, DecidableEq

/-- Python truthiness of `request.code` (main.py line 440): both `None`
and the empty string skip the execution block. -/
def pyTruthy : Option String → Bool
  | none => false
  | some s => s ≠ ""

/-- Python `x or default` on `Optional[int]` (main.py line 400): `None`
and `0` are falsy and yield the default. -/
def pyOrInt : Option Int → Int → Int
  | none, d => d
  | some v, d => if v = 0 then d else v

/-
Request and response shapes (main.py lines 43-63 and the endpoint return
dicts). HTTP errors (`raise HTTPException(status_code=s, ...)`) are
modelled as `Except.error s`.
-/

/-- Body of `POST /containers/start` (main.py lines 43-51). The pydantic
defaults are `timeout=60`, `keep_alive=False`, `ttl_seconds=300`,
`enable_ttyd=False`; `command` is accepted but never executed by
`container_start`. -/
structure StartRequest where
  container_name : String
  code : Option String := none
  command : Option String := none
  timeout : Option Int := some 60
  keep_alive : Bool := false
  ttl_seconds : Option Int := some 300
  enable_ttyd : Bool := false
deriving Repr, DecidableEq

/-- Result dict of an in-container execution (main.py lines 470-474). -/
structure ExecResult where
  exit_code : Int
  stdout : String
  stderr : String
deriving Repr, DecidableEq

/-- The `session` sub-object of the start response (main.py lines 495-500). -/
structure SessionOut where
  session_id : String
  persistent : Bool
  ttl_seconds : Int
  ttyd_url : Option String
deriving Repr, DecidableEq

/-- Response of `POST /containers/start` (main.py lines 489-501). -/
structure StartResponse where
  status : String
  container_id : String
  container_name : String
  execution_result : Option ExecResult
  session : Option SessionOut
deriving Repr, DecidableEq

deriving instance DecidableEq for Except

/-- Outcomes of the docker calls made inside `container_start`:
`containers.run`, `put_archive`, and the `exec_run` of the injected code.
`ttydHostPort` is the host port that the ttyd bring-up block discovers
(None when disabled, not published, or when that block raised - all its
failures are swallowed, main.py lines 405-430). -/
structure StartEnv where
  runOk : Except PyExc Unit := .ok ()
  putArchiveOk : Except PyExc Unit := .ok ()
  execOutcome : Except PyExc (Int × Option String × Option String) := .ok (0, none, none)
  ttydHostPort : Option String := none
deriving Repr, DecidableEq

/-- The session info dict as populated by `container_start`
(main.py lines 396-430) and completed by `track_container`:
`ttl_seconds = min(request.ttl_seconds or DEFAULT_SESSION_TTL,
MAX_SESSION_TTL)`; ttyd fields only set when `enable_ttyd`. -/
def start_session_info (req : StartRequest) (sid : String) (now : Int)
    (ttydHostPort : Option String) : SessionInfo :=
  { name := req.container_name
  , persistent := req.keep_alive
  , ttl_seconds := min (pyOrInt req.ttl_seconds DEFAULT_SESSION_TTL) MAX_SESSION_TTL
  , session_id := sid
  , started_at := now
  , last_activity := now
  , ttyd_enabled := req.enable_ttyd
  , ttyd_url :=
      if req.enable_ttyd then ttydHostPort.map (fun p => "http://localhost:" ++ p)
      else none }

/-- One-shot collapse (main.py lines 479-486): run only when
`not keep_alive and result`. The whole block sits in a single
`try .. except: pass`: when `container.stop` raises, `container.remove`
and `untrack_container` are skipped; when `remove` raises,
`untrack_container` is skipped. -/
def oneshot_cleanup (e : Engine) (tbl : Table) (cid : Key) (keep : Bool) :
    Engine × Table :=
  if keep then (e, tbl)
  else if e.stopRaises then (e, tbl)
  else
    let e1 : Engine := { e with containers := alModify e.containers cid (fun _ => CState.exited) }
    if e.removeRaises then (e1, tbl)
    else ({ e1 with containers := alRemove e1.containers cid }, untrack_container tbl cid)

/-- The start response dict (main.py lines 489-501): the `session`
sub-object is present exactly when `keep_alive`. -/
def mk_start_response (req : StartRequest) (container_id sid : String)
    (info : SessionInfo) (er : Option ExecResult) : StartResponse :=
  { status := "started"
  , container_id := container_id
  , container_name := req.container_name
  , execution_result := er
  , session :=
      if req.keep_alive then
        some { session_id := sid, persistent := req.keep_alive
             , ttl_seconds := info.ttl_seconds, ttyd_url := info.ttyd_url }
      else none }

/-- Body of the `try:` block of `container_start` (main.py lines 382-503):
engine availability check (raises HTTPException 503), `containers.run`,
record construction and tracking, optional code injection and execution,
one-shot collapse, response. State (engine, table) is threaded through
each raise exactly as the side effects persist in the source. `cid` is
the id docker assigns to the new container (`container.id`), `sid` the
uuid minted for the record, `now` the wall clock. -/
def start_body (e : Engine) (env : StartEnv) (tbl : Table) (req : StartRequest)
    (cid sid : String) (now : Int) : Except PyExc StartResponse × Engine × Table :=
  if e.avail = false then (.error (.httpExc 503), e, tbl)
  else
    match env.runOk with
    | .error ex => (.error ex, e, tbl)
    | .ok _ =>
      let container_id := cid.take 12
      let e1 : Engine := { e with containers := e.containers ++ [(container_id, CState.running)] }
      let info := start_session_info req sid now env.ttydHostPort
      let tbl1 := track_container tbl container_id info
      if pyTruthy req.code then
        match env.putArchiveOk with
        | .error ex => (.error ex, e1, tbl1)
        | .ok _ =>
          match env.execOutcome with
          | .error ex => (.error ex, e1, tbl1)
          | .ok t =>
            let er : ExecResult :=
              { exit_code := t.1
              , stdout := (t.2.1.getD "").take MAX_OUTPUT_LENGTH
              , stderr := (t.2.2.getD "").take MAX_OUTPUT_LENGTH }
            let cleaned := oneshot_cleanup e1 tbl1 container_id req.keep_alive
            (.ok (mk_start_response req container_id sid info (some er)), cleaned.1, cleaned.2)
      else
        (.ok (mk_start_response req container_id sid info none), e1, tbl1)

/-- The HTTP status produced by the except-clauses of `container_start`
(main.py lines 505-514): `docker.errors.ImageNotFound` maps to 404,
every other exception - including the `HTTPException(503)` raised inside
the try when docker is unavailable - is caught by `except Exception` and
re-raised as 500. -/
def start_http_error : PyExc → Nat
  | PyExc.imageNotFound => 404
  | _ => 500

/-- `POST /containers/start` (main.py lines 323-514): authorization
against the registry (403 outside the try block), then the try body with
its except-clauses. -/
def container_start (reg : Registry) (e : Engine) (env : StartEnv) (tbl : Table)
    (req : StartRequest) (cid sid : String) (now : Int) :
    Except Nat StartResponse × Engine × Table :=
  if is_container_allowed reg req.container_name then
    match start_body e env tbl req cid sid now with
    | (Except.ok r, e1, t1) => (.ok r, e1, t1)
    | (Except.error ex, e1, t1) => (.error (start_http_error ex), e1, t1)
  else
    (.error 403, e, tbl)

/-
`POST /containers/exec` (main.py lines 520-571).
-/

/-- Response of `POST /containers/exec` (main.py lines 552-558). -/
structure ExecResponse where
  container_id : String
  command : String
  exit_code : Int
  stdout : String
  stderr : String
deriving Repr, DecidableEq

/-- The handler of `container_exec` classifies a caught exception by
testing whether the string `NotFound` occurs in the name of its type
(main.py line 561): true for `docker.errors.NotFound` and
`docker.errors.ImageNotFound`, false for `APIError`, `HTTPException`
and everything else. -/
def exec_exc_is_notfound : PyExc → Bool
  | PyExc.notFound => true
  | PyExc.imageNotFound => true
  | _ => false

/-- `POST /containers/exec` (main.py lines 520-571): 404 when the id is
not tracked; otherwise `update_container_activity` runs before any engine
call; inside the try, an unavailable client raises HTTPException(503)
which the generic handler converts to 500 (its type name has no
`NotFound`); a vanished container untracks and maps to 404; other engine
errors map to 500; on success the demuxed streams are truncated to
`MAX_OUTPUT_LENGTH`. `eo` is the outcome of `container.exec_run`. -/
def container_exec (e : Engine) (eo : Except PyExc (Int × Option String × Option String))
    (tbl : Table) (id command : String) (now : Int) :
    Except Nat ExecResponse × Table :=
  if is_container_tracked tbl id = false then (.error 404, tbl)
  else
    let tbl1 := (update_container_activity tbl id now).1
    if e.avail = false then (.error 500, tbl1)
    else
      match alGet e.containers id with
      | none => (.error 404, untrack_container tbl1 id)
      | some _ =>
        match eo with
        | Except.ok t =>
          (.ok { container_id := id
               , command := command
               , exit_code := t.1
               , stdout := (t.2.1.getD "").take MAX_OUTPUT_LENGTH
               , stderr := (t.2.2.getD "").take MAX_OUTPUT_LENGTH }, tbl1)
        | Except.error ex =>
          if exec_exc_is_notfound ex then (.error 404, untrack_container tbl1 id)
          else (.error 500, tbl1)

/-
`POST /containers/stop` (main.py lines 577-646).
-/

/-- The `status` field of a stop response. -/
inductive StopStatus
  | stopped
  | already_stopped
  | error_but_cleaned
  | no_docker
deriving Repr, DecidableEq

/-- `POST /containers/stop` (main.py lines 577-646). Never raises: every
branch returns a dict. Unavailable client: untrack, `no_docker`. Engine
lookup `NotFound`: untrack, `already_stopped`. Status exited/dead: remove
inside an inner `try .. except: pass`, untrack, `stopped`. Running: stop
then remove; `APIError` or any other exception from them is absorbed into
`error_but_cleaned` with the tracking still cleaned. -/
def container_stop (e : Engine) (tbl : Table) (id : Key) :
    Except Nat StopStatus × Engine × Table :=
  if e.avail = false then
    (.ok .no_docker, e, untrack_container tbl id)
  else
    match alGet e.containers id with
    | none => (.ok .already_stopped, e, untrack_container tbl id)
    | some st =>
      if st = CState.exited ∨ st = CState.dead then
        let e1 : Engine :=
          if e.removeRaises then e
          else { e with containers := alRemove e.containers id }
        (.ok .stopped, e1, untrack_container tbl id)
      else
        if e.stopRaises then
          (.ok .error_but_cleaned, e, untrack_container tbl id)
        else
          let e1 : Engine := { e with containers := alModify e.containers id (fun _ => CState.exited) }
          if e.removeRaises then
            (.ok .error_but_cleaned, e1, untrack_container tbl id)
          else
            (.ok .stopped, { e1 with containers := alRemove e1.containers id }, untrack_container tbl id)

/-
`POST /sessions/{session_id}/extend` (main.py lines 800-818).
-/

/-- Response of the extend endpoint (main.py lines 811-816). -/
structure ExtendResponse where
  session_id : String
  extended_by : Int
  new_ttl : Int
deriving Repr, DecidableEq

/-- The loop body of `extend_session`: walk `active_containers` in
insertion order, mutate and answer at the first record whose `session_id`
matches (main.py lines 804-816). Returns the new ttl and the updated
table, or `none` when no record matches. -/
def extendGo (sid : String) (delta now : Int) : Table → Option (Int × Table)
  | [] => none
  | (cid, r) :: rest =>
    if r.session_id = sid then
      let newTtl := min (r.ttl_seconds + delta) MAX_SESSION_TTL
      some (newTtl, (cid, { r with last_activity := now, ttl_seconds := newTtl }) :: rest)
    else
      match extendGo sid delta now rest with
      | none => none
      | some (t, rest') => some (t, (cid, r) :: rest')

/-- `POST /sessions/{session_id}/extend` (main.py lines 800-818): under
the table lock, `last_activity` becomes now and
`ttl_seconds ← min(ttl_seconds + extend_seconds, MAX_SESSION_TTL)` on the
matching record; 404 when no record matches. -/
def extend_session (tbl : Table) (sid : String) (delta now : Int) :
    Except Nat ExtendResponse × Table :=
  match extendGo sid delta now tbl with
  | none => (.error 404, tbl)
  | some (t, tbl1) =>
    (.ok { session_id := sid, extended_by := delta, new_ttl := t }, tbl1)

/-
Reaper (main.py lines 91-131): every CLEANUP_INTERVAL seconds the loop
calls `cleanup_expired_sessions`.
-/

/-- Expiry test of the reaper (main.py lines 112-122): only persistent
records are considered; a record is expired when
`now > last_activity + ttl_seconds`. -/
def sessionExpired (now : Int) (r : SessionInfo) : Bool :=
  r.persistent && decide (r.last_activity + r.ttl_seconds < now)

/-- Engine side of reaping one expired container (main.py lines 124-129):
`containers.get`, `stop(timeout=5)`, `remove()` inside a bare
`try .. except: pass`, so every engine error is swallowed. -/
def reapOne (e : Engine) (id : Key) : Engine :=
  match alGet e.containers id with
  | none => e
  | some _ =>
    if e.stopRaises then e
    else
      let e1 : Engine := { e with containers := alModify e.containers id (fun _ => CState.exited) }
      if e.removeRaises then e1
      else { e1 with containers := alRemove e1.containers id }

/-- One iteration of the reaper's loop body applied to one snapshot entry:
expired records get their container reaped (errors swallowed) and are
untracked - `untrack_container` sits after the try/except and always
runs. -/
def reapStep (now : Int) (acc : Engine × Table) (p : Key × SessionInfo) :
    Engine × Table :=
  if sessionExpired now p.2 then (reapOne acc.1 p.1, untrack_container acc.2 p.1)
  else acc

/-- Fold of `reapStep` over the snapshot taken at the top of the tick. -/
def reapList (now : Int) : List (Key × SessionInfo) → Engine × Table → Engine × Table
  | [], acc => acc
  | p :: rest, acc => reapList now rest (reapStep now acc p)

/-- `cleanup_expired_sessions` (main.py lines 102-131): when the docker
client cannot initialize the tick returns immediately and removes
nothing; otherwise it iterates over a snapshot of the table and reaps
every expired persistent record. -/
def cleanup_expired_sessions (now : Int) (e : Engine) (tbl : Table) :
    Engine × Table :=
  if e.avail = false then (e, tbl)
  else reapList now tbl (e, tbl)

/-
`GET /sessions` (main.py lines 740-768). The same
`ttl - (datetime.now() - last_activity).seconds` computation appears in
`container_status` (line 680), `list_sessions` (line 755) and
`get_session` (line 784).
-/

/-- Python `timedelta.seconds` of a duration of `total` integer seconds:
the seconds component of the normalized timedelta, i.e. the floored
remainder modulo 86400 - NOT the total duration. -/
def timedelta_seconds (total : Int) : Int :=
  total % 86400

/-- The `remaining_seconds` value the endpoints report
(main.py lines 680-684, 755-764, 784-793):
`max(0, ttl - (now - last_activity).seconds)`. -/
def session_remaining (now : Int) (r : SessionInfo) : Int :=
  max 0 (r.ttl_seconds - timedelta_seconds (now - r.last_activity))

/-- One element of the `sessions` array (main.py lines 757-766). -/
structure SessionView where
  session_id : String
  container_id : String
  name : String
  started_at : Int
  last_activity : Int
  ttl_seconds : Int
  remaining_seconds : Int
  ttyd_enabled : Bool
deriving Repr, DecidableEq

/-- `GET /sessions` (main.py lines 740-768): one view per persistent
record of the snapshot. -/
def list_sessions (now : Int) (tbl : Table) : List SessionView :=
  tbl.filterMap fun p =>
    if p.2.persistent then
      some { session_id := p.2.session_id
           , container_id := p.1
           , name := p.2.name
           , started_at := p.2.started_at
           , last_activity := p.2.last_activity
           , ttl_seconds := p.2.ttl_seconds
           , remaining_seconds := session_remaining now p.2
           , ttyd_enabled := p.2.ttyd_enabled }
    else none

/-
Shared sample data for witnesses and counterexamples.
-/

/-- Sample registry holding a single profile. -/
def reg0 : Registry := [("python-sandbox", {})]

/-- Sample available engine with no containers. -/
def engUp : Engine := {}

/-- Sample unavailable engine. -/
def engDown : Engine := { avail := false }

/-- Sample docker-call outcomes where everything succeeds. -/
def env0 : StartEnv := {}

/-- Sample persistent record. -/
def rec0 : SessionInfo :=
  { name := "python-sandbox", persistent := true, ttl_seconds := 300
  , session_id := "sid-0", started_at := 0, last_activity := 0 }

/-
Claim C1.
-/

/-- Claim C1: for every start request, the response is 403
(ProfileNotAllowed) if and only if the registry does not contain a
profile under the requested container_name, and when the name is not
allowed neither the engine nor the session table changes. -/
theorem c1_start_authorization (reg : Registry) (e : Engine) (env : StartEnv)
    (tbl : Table) (req : StartRequest) (cid sid : String) (now : Int) :
    ((container_start reg e env tbl req cid sid now).1 = Except.error 403 ↔
      is_container_allowed reg req.container_name = false) ∧
    (is_container_allowed reg req.container_name = false →
      container_start reg e env tbl req cid sid now = (Except.error 403, e, tbl)) := by
  cases h : is_container_allowed reg req.container_name with
  | false =>
    refine ⟨?_, ?_⟩
    · simp [container_start, h]
    · intro _
      simp [container_start, h]
  | true =>
    refine ⟨?_, ?_⟩
    · rcases hb : start_body e env tbl req cid sid now with ⟨res, e1, t1⟩
      cases res with
      | ok r => simp [container_start, h, hb]
      | error ex =>
        simp only [container_start, h, if_true, hb]
        cases ex <;> simp [start_http_error]
    · intro hf
      simp at hf

/-- Claim C1 witness: a start request for the unregistered name `rogue`
against `reg0` is rejected with 403 and leaves engine and table alone. -/
theorem c1_start_authorization_witness :
    container_start reg0 engUp env0 []
      { container_name := "rogue" } "cid" "sid" 0 = (Except.error 403, engUp, []) :=
  (c1_start_authorization reg0 engUp env0 []
    { container_name := "rogue" } "cid" "sid" 0).2 (by decide)

/-
Claims C2 and C10: `container_stop`.
-/

/-- Every branch of `container_stop` returns a result dict; no branch
raises an HTTPException. -/
theorem container_stop_ok (e : Engine) (tbl : Table) (id : Key) :
    ∃ s, (container_stop e tbl id).1 = Except.ok s := by
  unfold container_stop
  repeat' split
  all_goals exact ⟨_, rfl⟩

/-- Every branch of `container_stop` removes the id from the session
table. -/
theorem container_stop_untracks (e : Engine) (tbl : Table) (id : Key) :
    alGet (container_stop e tbl id).2.2 id = none := by
  unfold container_stop untrack_container
  repeat' split
  all_goals exact alGet_alRemove_self tbl id

/-- `container_stop` never changes the availability of the engine
client. -/
theorem container_stop_avail (e : Engine) (tbl : Table) (id : Key) :
    (container_stop e tbl id).2.1.avail = e.avail := by
  unfold container_stop
  repeat' split
  all_goals rfl

/-- When the engine is available and neither stop nor remove raises, the
container is no longer listed by the engine after `container_stop`. -/
theorem container_stop_engine_clears (e : Engine) (tbl : Table) (id : Key)
    (ha : e.avail = true) (hs : e.stopRaises = false) (hr : e.removeRaises = false) :
    alGet (container_stop e tbl id).2.1.containers id = none := by
  have ha2 : ¬ (e.avail = false) := by rw [ha]; simp
  unfold container_stop
  rw [if_neg ha2]
  cases hg : alGet e.containers id with
  | none => simpa using hg
  | some st =>
    by_cases hst : st = CState.exited ∨ st = CState.dead
    · simp [hst, hr, alGet_alRemove_self]
    · simp [hst, hs, hr, alGet_alRemove_self]

/-- Sample engine listing one running container `c1`. -/
def engRun : Engine := { containers := [("c1", CState.running)] }

/-- Sample table tracking `c1`. -/
def tblC2 : Table := [("c1", rec0)]

/-- Claim C2: every `stop(container_id)` call returns a success-class
result (`stopped`, `already_stopped`, `error_but_cleaned` or `no_docker`)
instead of raising, for every engine state including not-found, API
errors and unavailability; on return the session table no longer tracks
the id; and when the engine is available and its stop/remove calls
succeed, a second stop of the same id returns `already_stopped`. -/
theorem c2_stop_absorbing_idempotent (e : Engine) (tbl : Table) (id : Key) :
    (∃ s, (container_stop e tbl id).1 = Except.ok s) ∧
    is_container_tracked (container_stop e tbl id).2.2 id = false ∧
    (e.avail = true → e.stopRaises = false → e.removeRaises = false →
      (container_stop (container_stop e tbl id).2.1
        (container_stop e tbl id).2.2 id).1 = Except.ok StopStatus.already_stopped) := by
  refine ⟨container_stop_ok e tbl id, ?_, ?_⟩
  · simp [is_container_tracked, container_stop_untracks]
  · intro ha hs hr
    rcases hp : container_stop e tbl id with ⟨s1, e1, t1⟩
    have h1 : e1.avail = true := by
      have h := container_stop_avail e tbl id
      rw [hp] at h
      simpa [ha] using h
    have h2 : alGet e1.containers id = none := by
      have h := container_stop_engine_clears e tbl id ha hs hr
      rw [hp] at h
      exact h
    have h3 : ¬ (e1.avail = false) := by rw [h1]; simp
    show (container_stop e1 t1 id).1 = Except.ok StopStatus.already_stopped
    unfold container_stop
    rw [if_neg h3]
    simp [h2]

/-- Claim C2 witness: stopping the tracked running container `c1` on a
well-behaved engine succeeds, clears the tracking entry, and a second
stop answers `already_stopped`. -/
theorem c2_stop_absorbing_idempotent_witness :
    (∃ s, (container_stop engRun tblC2 "c1").1 = Except.ok s) ∧
    is_container_tracked (container_stop engRun tblC2 "c1").2.2 "c1" = false ∧
    (container_stop (container_stop engRun tblC2 "c1").2.1
      (container_stop engRun tblC2 "c1").2.2 "c1").1 =
        Except.ok StopStatus.already_stopped :=
  ⟨(c2_stop_absorbing_idempotent engRun tblC2 "c1").1,
   (c2_stop_absorbing_idempotent engRun tblC2 "c1").2.1,
   (c2_stop_absorbing_idempotent engRun tblC2 "c1").2.2 rfl rfl rfl⟩

/-- Claim C10: the stop endpoint never requires the id to be tracked: it
never answers SessionNotFound (every outcome is a success dict), and an
engine container that was never recorded in the session table is still
looked up, stopped and removed. -/
theorem c10_stop_ignores_tracking (e : Engine) (tbl : Table) (id : Key) :
    (∃ s, (container_stop e tbl id).1 = Except.ok s) ∧
    (alGet tbl id = none → e.avail = true →
     alGet e.containers id = some CState.running →
     e.stopRaises = false → e.removeRaises = false →
     (container_stop e tbl id).1 = Except.ok StopStatus.stopped ∧
     alGet (container_stop e tbl id).2.1.containers id = none) := by
  refine ⟨container_stop_ok e tbl id, ?_⟩
  intro htbl ha hg hs hr
  refine ⟨?_, container_stop_engine_clears e tbl id ha hs hr⟩
  have ha2 : ¬ (e.avail = false) := by rw [ha]; simp
  unfold container_stop
  rw [if_neg ha2]
  simp [hg, hs, hr]

/-- Claim C10 witness: stopping the never-tracked running container `c1`
answers `stopped` and removes it from the engine. -/
theorem c10_stop_ignores_tracking_witness :
    (∃ s, (container_stop engRun [] "c1").1 = Except.ok s) ∧
    ((container_stop engRun [] "c1").1 = Except.ok StopStatus.stopped ∧
     alGet (container_stop engRun [] "c1").2.1.containers "c1" = none) :=
  ⟨(c10_stop_ignores_tracking engRun [] "c1").1,
   (c10_stop_ignores_tracking engRun [] "c1").2 rfl rfl (by decide) rfl rfl⟩

/-
Claim C3: one-shot collapse.
-/

/-- Claim C3 counterexample: a start with `keep_alive=false` and no code
(`result` stays None, so the cleanup block at main.py line 479 is
skipped) leaves the record in the session table and the container
running in the engine after the response - the claim asserts no record
remains whether or not code was supplied. -/
theorem c3_counterexample :
    is_container_tracked
      (container_start reg0 engUp env0 []
        { container_name := "python-sandbox" } "abcdef123456" "sid-1" 0).2.2
      "abcdef123456" = true ∧
    alGet
      (container_start reg0 engUp env0 []
        { container_name := "python-sandbox" } "abcdef123456" "sid-1" 0).2.1.containers
      "abcdef123456" = some CState.running := by
  decide

/-- Claim C3 as amended: the collapse is guaranteed only when code was
supplied and executed (the source runs cleanup only when an execution
produced a result) and when the engine's stop and remove calls succeed
(the whole cleanup block is one `try .. except: pass`, so a raising stop
or remove skips `untrack_container`). Under those conditions, after a
`keep_alive=false` start the table has no record for the produced id and
the engine no longer lists the container. -/
theorem c3_oneshot_collapse (reg : Registry) (e : Engine) (env : StartEnv)
    (tbl : Table) (req : StartRequest) (cid sid : String) (now : Int)
    (t : Int × Option String × Option String)
    (hallow : is_container_allowed reg req.container_name = true)
    (havail : e.avail = true)
    (hrun : env.runOk = Except.ok ())
    (hcode : pyTruthy req.code = true)
    (harch : env.putArchiveOk = Except.ok ())
    (ht : env.execOutcome = Except.ok t)
    (hkeep : req.keep_alive = false)
    (hs : e.stopRaises = false)
    (hr : e.removeRaises = false) :
    (∃ resp, (container_start reg e env tbl req cid sid now).1 = Except.ok resp) ∧
    alGet (container_start reg e env tbl req cid sid now).2.2 (cid.take 12) = none ∧
    alGet (container_start reg e env tbl req cid sid now).2.1.containers (cid.take 12) = none := by
  refine ⟨?_, ?_, ?_⟩ <;>
    simp [container_start, start_body, oneshot_cleanup, untrack_container,
      hallow, havail, hrun, hcode, harch, ht, hkeep, hs, hr, alGet_alRemove_self]

/-- Claim C3 witness: a one-shot start of `python-sandbox` with code, on
a well-behaved engine, leaves no record and no engine container. -/
theorem c3_oneshot_collapse_witness :
    (∃ resp,
      (container_start reg0 engUp env0 []
        { container_name := "python-sandbox", code := some "print(2+2)" }
        "abcdef123456" "sid-1" 0).1 = Except.ok resp) ∧
    alGet
      (container_start reg0 engUp env0 []
        { container_name := "python-sandbox", code := some "print(2+2)" }
        "abcdef123456" "sid-1" 0).2.2 ("abcdef123456".take 12) = none ∧
    alGet
      (container_start reg0 engUp env0 []
        { container_name := "python-sandbox", code := some "print(2+2)" }
        "abcdef123456" "sid-1" 0).2.1.containers ("abcdef123456".take 12) = none :=
  c3_oneshot_collapse reg0 engUp env0 []
    { container_name := "python-sandbox", code := some "print(2+2)" }
    "abcdef123456" "sid-1" 0 (0, none, none)
    (by decide) rfl rfl (by decide) rfl rfl rfl rfl rfl

/-
Claim C4: engine unavailable at start time.
-/

/-- Claim C4, evaluated at the failing input: a start request for an
allowed profile while the docker client cannot initialize answers HTTP
500, not the 503 the claim (and the `raise HTTPException(503)` at
main.py line 386) intends - the 503 HTTPException is raised inside the
`try:` block and swallowed by the `except Exception` clause at line 510,
which re-raises it as 500. -/
theorem c4_engine_unavailable_answers_500 :
    (container_start reg0 engDown env0 []
      { container_name := "python-sandbox" } "abcdef123456" "sid-1" 0).1 =
        Except.error 500 ∧
    (500 : Nat) ≠ 503 := by
  decide

/-
Claim C5: TTL stored at start.
-/

/-- Claim C5 counterexample: a requested `ttl_seconds` of 0 is falsy in
Python, so `request.ttl_seconds or DEFAULT_SESSION_TTL` replaces it by
the default 300 - the stored value is not `min(0, MAX_SESSION_TTL) = 0`
as the claim states. -/
theorem c5_counterexample :
    (alGet
      (container_start reg0 engUp env0 []
        { container_name := "python-sandbox", keep_alive := true, ttl_seconds := some 0 }
        "abcdef123456" "sid-1" 0).2.2
      "abcdef123456").map SessionInfo.ttl_seconds = some 300 ∧
    ¬ ((300 : Int) = min 0 MAX_SESSION_TTL) := by
  decide

/-- Claim C5 as amended: the created record stores
`min(request.ttl_seconds or DEFAULT_SESSION_TTL, MAX_SESSION_TTL)`, where
an absent, null or zero request yields the default; the stored value
never exceeds `MAX_SESSION_TTL` and is nonnegative whenever the request
is absent or nonnegative (a negative request is stored unclamped). -/
theorem c5_ttl_clamp (reg : Registry) (e : Engine) (env : StartEnv)
    (tbl : Table) (req : StartRequest) (cid sid : String) (now : Int)
    (hallow : is_container_allowed reg req.container_name = true)
    (havail : e.avail = true)
    (hrun : env.runOk = Except.ok ())
    (hkeep : req.keep_alive = true) :
    ∃ info,
      alGet (container_start reg e env tbl req cid sid now).2.2 (cid.take 12) = some info ∧
      info.ttl_seconds = min (pyOrInt req.ttl_seconds DEFAULT_SESSION_TTL) MAX_SESSION_TTL ∧
      info.ttl_seconds ≤ MAX_SESSION_TTL ∧
      ((req.ttl_seconds = none ∨ ∃ v, req.ttl_seconds = some v ∧ 0 ≤ v) →
        0 ≤ info.ttl_seconds) := by
  have htbl : (container_start reg e env tbl req cid sid now).2.2 =
      track_container tbl (cid.take 12) (start_session_info req sid now env.ttydHostPort) := by
    cases hc : pyTruthy req.code
    · simp [container_start, start_body, hallow, havail, hrun, hc]
    · cases hpa : env.putArchiveOk with
      | error ex =>
        simp [container_start, start_body, hallow, havail, hrun, hc, hpa]
      | ok u =>
        cases hex : env.execOutcome with
        | error ex =>
          simp [container_start, start_body, hallow, havail, hrun, hc, hpa, hex]
        | ok t =>
          simp [container_start, start_body, hallow, havail, hrun, hc, hpa, hex,
            oneshot_cleanup, hkeep]
  refine ⟨start_session_info req sid now env.ttydHostPort, ?_, rfl, min_le_right _ _, ?_⟩
  · rw [htbl]
    simp [track_container, alGet_alSet_self]
  · intro h
    show 0 ≤ min (pyOrInt req.ttl_seconds DEFAULT_SESSION_TTL) MAX_SESSION_TTL
    rcases h with hn | ⟨v, hv, h0⟩
    · rw [hn]
      decide
    · rw [hv]
      by_cases hz : v = 0
      · simp [pyOrInt, hz]
        decide
      · simp [pyOrInt, hz]
        exact ⟨h0, by decide⟩

/-- Claim C5 witness: a persistent start requesting `ttl_seconds=9999`
stores the clamp `min(9999, 3600) = 3600`, which is within bounds. -/
theorem c5_ttl_clamp_witness :
    ∃ info,
      alGet
        (container_start reg0 engUp env0 []
          { container_name := "python-sandbox", keep_alive := true, ttl_seconds := some 9999 }
          "abcdef123456" "sid-1" 0).2.2 ("abcdef123456".take 12) = some info ∧
      info.ttl_seconds =
        min (pyOrInt (some 9999) DEFAULT_SESSION_TTL) MAX_SESSION_TTL ∧
      info.ttl_seconds ≤ MAX_SESSION_TTL ∧
      ((some (9999 : Int) = none ∨ ∃ v, some (9999 : Int) = some v ∧ 0 ≤ v) →
        0 ≤ info.ttl_seconds) :=
  c5_ttl_clamp reg0 engUp env0 []
    { container_name := "python-sandbox", keep_alive := true, ttl_seconds := some 9999 }
    "abcdef123456" "sid-1" 0 (by decide) rfl rfl rfl

/-
Claim C6: `extend_session`.
-/

/-- When no record carries the session id, the extend loop finds
nothing. -/
theorem extendGo_none (sid : String) (delta now : Int) (tbl : Table)
    (h : ∀ p ∈ tbl, p.2.session_id ≠ sid) :
    extendGo sid delta now tbl = none := by
  induction tbl with
  | nil => rfl
  | cons p rest ih =>
    rcases p with ⟨cid, r⟩
    have hr : r.session_id ≠ sid := h (cid, r) (List.mem_cons_self _ _)
    have ih2 := ih (fun q hq => h q (List.mem_cons_of_mem _ hq))
    simp [extendGo, hr, ih2]

/-- The extend loop mutates exactly the first record whose session id
matches and leaves everything else in place. -/
theorem extendGo_found (sid : String) (delta now : Int) (pre post : Table)
    (cid : Key) (r : SessionInfo)
    (hpre : ∀ p ∈ pre, p.2.session_id ≠ sid) (hr : r.session_id = sid) :
    extendGo sid delta now (pre ++ (cid, r) :: post) =
      some (min (r.ttl_seconds + delta) MAX_SESSION_TTL,
        pre ++ (cid, { r with
                       last_activity := now,
                       ttl_seconds := min (r.ttl_seconds + delta) MAX_SESSION_TTL }) :: post) := by
  induction pre with
  | nil => simp [extendGo, hr]
  | cons q rest ih =>
    rcases q with ⟨qc, qr⟩
    have hq : qr.session_id ≠ sid := hpre (qc, qr) (List.mem_cons_self _ _)
    have ih2 := ih (fun p hp => hpre p (List.mem_cons_of_mem _ hp))
    simp [extendGo, hq, ih2]

/-- Claim C6: extending an unknown session id answers 404 and leaves the
table unchanged; extending a tracked session atomically sets
`ttl_seconds ← min(old_ttl + delta, MAX_SESSION_TTL)` and
`last_activity ← now` on the first matching record, so the resulting ttl
never exceeds `MAX_SESSION_TTL`. -/
theorem c6_extend_clamps (tbl : Table) (sid : String) (delta now : Int) :
    ((∀ p ∈ tbl, p.2.session_id ≠ sid) →
      extend_session tbl sid delta now = (Except.error 404, tbl)) ∧
    (∀ pre post cid r, tbl = pre ++ (cid, r) :: post →
      (∀ p ∈ pre, p.2.session_id ≠ sid) → r.session_id = sid →
      extend_session tbl sid delta now =
        (Except.ok { session_id := sid, extended_by := delta
                   , new_ttl := min (r.ttl_seconds + delta) MAX_SESSION_TTL },
         pre ++ (cid, { r with
                        last_activity := now,
                        ttl_seconds := min (r.ttl_seconds + delta) MAX_SESSION_TTL }) :: post) ∧
      min (r.ttl_seconds + delta) MAX_SESSION_TTL ≤ MAX_SESSION_TTL) := by
  constructor
  · intro h
    simp [extend_session, extendGo_none sid delta now tbl h]
  · intro pre post cid r heq hpre hr
    subst heq
    refine ⟨?_, min_le_right _ _⟩
    simp [extend_session, extendGo_found sid delta now pre post cid r hpre hr]

/-- Claim C6 witness: extending `sid-0` on a table tracking it by 600
seconds answers `new_ttl = min(300 + 600, 3600) = 900` and touches the
record. -/
theorem c6_extend_clamps_witness :
    extend_session tblC2 "sid-0" 600 10 =
      (Except.ok { session_id := "sid-0", extended_by := 600
                 , new_ttl := min (rec0.ttl_seconds + 600) MAX_SESSION_TTL },
       [] ++ ("c1", { rec0 with
                      last_activity := 10,
                      ttl_seconds := min (rec0.ttl_seconds + 600) MAX_SESSION_TTL }) :: []) ∧
    min (rec0.ttl_seconds + 600) MAX_SESSION_TTL ≤ MAX_SESSION_TTL :=
  (c6_extend_clamps tblC2 "sid-0" 600 10).2 [] [] "c1" rec0 rfl
    (fun p hp => absurd hp (List.not_mem_nil p)) rfl

/-
Claim C7: `container_exec` touches before executing.
-/

/-- Claim C7: exec on an untracked id answers 404 and leaves the table
untouched; exec on a tracked id sets the record's `last_activity` to now
before any engine call, so whatever the engine outcome the surviving
record carries `last_activity = now`; and a successful exec strictly
increases `last_activity` whenever the clock advanced since the previous
value. -/
theorem c7_exec_touch (e : Engine)
    (eo : Except PyExc (Int × Option String × Option String))
    (tbl : Table) (id cmd : String) (now : Int) :
    (alGet tbl id = none →
      container_exec e eo tbl id cmd now = (Except.error 404, tbl)) ∧
    (∀ r, alGet tbl id = some r →
      (alGet (container_exec e eo tbl id cmd now).2 id = none ∨
       alGet (container_exec e eo tbl id cmd now).2 id =
         some { r with last_activity := now }) ∧
      (e.avail = true → (∃ st, alGet e.containers id = some st) →
       (∃ t, eo = Except.ok t) → r.last_activity < now →
       (∃ resp, (container_exec e eo tbl id cmd now).1 = Except.ok resp) ∧
       ∃ r2, alGet (container_exec e eo tbl id cmd now).2 id = some r2 ∧
         r.last_activity < r2.last_activity)) := by
  constructor
  · intro h
    simp [container_exec, is_container_tracked, h]
  · intro r hr
    have htr : is_container_tracked tbl id = true := by
      simp [is_container_tracked, hr]
    have hupd : alGet (update_container_activity tbl id now).1 id =
        some { r with last_activity := now } := by
      simp [update_container_activity, alGet_alModify, hr]
    cases he : e.avail with
    | false =>
      constructor
      · right
        simp [container_exec, htr, he, hupd]
      · intro ha
        simp at ha
    | true =>
      cases hg : alGet e.containers id with
      | none =>
        constructor
        · left
          simp [container_exec, htr, he, hg, untrack_container, alGet_alRemove_self]
        · intro _ hst _
          rcases hst with ⟨st, hst⟩
          simp at hst
      | some st =>
        cases eo with
        | ok t =>
          constructor
          · right
            simp [container_exec, htr, he, hg, hupd]
          · intro _ _ _ hlt
            refine ⟨⟨{ container_id := id, command := cmd, exit_code := t.1
                     , stdout := (t.2.1.getD "").take MAX_OUTPUT_LENGTH
                     , stderr := (t.2.2.getD "").take MAX_OUTPUT_LENGTH }, ?_⟩,
                    ⟨{ r with last_activity := now }, ?_, ?_⟩⟩
            · simp [container_exec, htr, he, hg]
            · simp [container_exec, htr, he, hg, hupd]
            · simpa using hlt
        | error ex =>
          constructor
          · cases hnf : exec_exc_is_notfound ex with
            | true =>
              left
              simp [container_exec, htr, he, hg, hnf, untrack_container,
                alGet_alRemove_self]
            | false =>
              right
              simp [container_exec, htr, he, hg, hnf, hupd]
          · intro _ _ hok _
            rcases hok with ⟨t, hok⟩
            simp at hok

/-- Claim C7 witness: a successful exec on the tracked container `c1` at
time 5 succeeds and strictly increases `last_activity` from 0 to 5. -/
theorem c7_exec_touch_witness :
    (∃ resp,
      (container_exec engRun (Except.ok (0, some "hi", none)) tblC2
        "c1" "echo hi" 5).1 = Except.ok resp) ∧
    ∃ r2,
      alGet (container_exec engRun (Except.ok (0, some "hi", none)) tblC2
        "c1" "echo hi" 5).2 "c1" = some r2 ∧
      rec0.last_activity < r2.last_activity :=
  ((c7_exec_touch engRun (Except.ok (0, some "hi", none)) tblC2
      "c1" "echo hi" 5).2 rec0 (by decide)).2 rfl
    ⟨CState.running, by decide⟩ ⟨(0, some "hi", none), rfl⟩ (by decide)

/-
Claim C8: the reaper.
-/

/-- A key absent from the table stays absent through one reap step. -/
theorem reapStep_none (now : Int) (acc : Engine × Table) (p : Key × SessionInfo)
    (cid : Key) (h : alGet acc.2 cid = none) :
    alGet (reapStep now acc p).2 cid = none := by
  by_cases hx : sessionExpired now p.2 = true
  · have h2 : (reapStep now acc p).2 = alRemove acc.2 p.1 := by
      simp [reapStep, hx, untrack_container]
    rw [h2, alGet_alRemove]
    by_cases hp : p.1 = cid <;> simp [hp, h]
  · simpa [reapStep, hx] using h

/-- A key absent from the table stays absent through the whole reap
fold. -/
theorem reapList_none (now : Int) (cid : Key) :
    ∀ (l : List (Key × SessionInfo)) (acc : Engine × Table),
      alGet acc.2 cid = none → alGet (reapList now l acc).2 cid = none := by
  intro l
  induction l with
  | nil => intro acc h; exact h
  | cons p rest ih =>
    intro acc h
    exact ih _ (reapStep_none now acc p cid h)

/-- Any snapshot entry that tests expired has its key removed from the
table by the reap fold. -/
theorem reapList_removes (now : Int) (cid : Key) (r : SessionInfo) :
    ∀ (l : List (Key × SessionInfo)) (acc : Engine × Table),
      (cid, r) ∈ l → sessionExpired now r = true →
      alGet (reapList now l acc).2 cid = none := by
  intro l
  induction l with
  | nil => intro acc hmem _; cases hmem
  | cons p rest ih =>
    intro acc hmem hexp
    rcases List.mem_cons.mp hmem with heq | htail
    · subst heq
      show alGet (reapList now rest (reapStep now acc (cid, r))).2 cid = none
      apply reapList_none now cid rest
      have h2 : (reapStep now acc (cid, r)).2 = alRemove acc.2 cid := by
        simp [reapStep, hexp, untrack_container]
      rw [h2]
      exact alGet_alRemove_self _ _
    · exact ih _ htail hexp

/-- A key none of whose snapshot entries test expired keeps its record
through the reap fold. -/
theorem reapList_keeps (now : Int) (cid : Key) (r : SessionInfo) :
    ∀ (l : List (Key × SessionInfo)) (acc : Engine × Table),
      (∀ p ∈ l, p.1 = cid → sessionExpired now p.2 = false) →
      alGet acc.2 cid = some r → alGet (reapList now l acc).2 cid = some r := by
  intro l
  induction l with
  | nil => intro acc _ h; exact h
  | cons p rest ih =>
    intro acc hsafe h
    apply ih _ (fun q hq hqc => hsafe q (List.mem_cons_of_mem _ hq) hqc)
    by_cases hx : sessionExpired now p.2 = true
    · have hp : ¬ (p.1 = cid) := by
        intro hpc
        have hf := hsafe p (List.mem_cons_self _ _) hpc
        rw [hf] at hx
        simp at hx
      have h2 : (reapStep now acc p).2 = alRemove acc.2 p.1 := by
        simp [reapStep, hx, untrack_container]
      rw [h2, alGet_alRemove]
      simp [hp, h]
    · simpa [reapStep, hx] using h

/-- For a periodic task with tick times `t0 + k * I` (period `I > 0`, as
`session_cleanup_loop` sleeps `CLEANUP_INTERVAL` between ticks), every
window `[a, a + I]` with `a ≥ t0` contains a tick. -/
theorem exists_tick_in_window (t0 a I : Int) (hI : 0 < I) (h0 : t0 ≤ a) :
    ∃ k : Nat, a ≤ t0 + (k : Int) * I ∧ t0 + (k : Int) * I ≤ a + I := by
  have hI0 : I ≠ 0 := ne_of_gt hI
  have hm0 : (0 : Int) ≤ a - t0 + I - 1 := by linarith
  have hq0 : (0 : Int) ≤ (a - t0 + I - 1) / I :=
    Int.ediv_nonneg hm0 (le_of_lt hI)
  refine ⟨((a - t0 + I - 1) / I).toNat, ?_, ?_⟩ <;>
  · have hqt : ((((a - t0 + I - 1) / I).toNat : Int)) = (a - t0 + I - 1) / I :=
      Int.toNat_of_nonneg hq0
    have key := Int.emod_add_ediv (a - t0 + I - 1) I
    have r1 := Int.emod_nonneg (a - t0 + I - 1) hI0
    have r2 := Int.emod_lt_of_pos (a - t0 + I - 1) hI
    rw [hqt, mul_comm]
    linarith [key, r1, r2]

/-- Sample expired persistent record: ttl 5 seconds, last activity at
time 0. -/
def recExp : SessionInfo :=
  { name := "python-sandbox", persistent := true, ttl_seconds := 5
  , session_id := "sid-x", started_at := 0, last_activity := 0 }

/-- Sample non-persistent record. -/
def recNp : SessionInfo :=
  { name := "python-sandbox", persistent := false, ttl_seconds := 300
  , session_id := "sid-n", started_at := 0, last_activity := 0 }

/-- Claim C8 counterexample: with the docker client unavailable,
`cleanup_expired_sessions` returns immediately (main.py lines 104-106),
so a persistent record expired for far longer than one CLEANUP_INTERVAL
(ttl 5, inactive for 1000 seconds) survives the tick - and since
`get_docker_client` caches unavailability, every later tick behaves the
same. The claim as stated promises removal unconditionally. -/
theorem c8_counterexample :
    alGet (cleanup_expired_sessions 1000
      { avail := false, containers := [("x", CState.running)] }
      [("x", recExp)]).2 "x" = some recExp := by
  decide

/-- Claim C8 as amended: provided the engine client is available, every
persistent record whose inactivity exceeds its ttl at time `a` (and
hence at every later time) is removed from the session table by the
reaper tick that falls inside the window `[a, a + I]` of one tick period
- engine errors during stop/remove are swallowed and do not prevent the
removal; and a record with `persistent=false` is never evicted by a
tick. -/
theorem c8_reaper_eviction :
    (∀ (e : Engine) (tbl : Table) (cid : Key) (r : SessionInfo) (t0 I a : Int),
      e.avail = true → 0 < I → t0 ≤ a →
      alGet tbl cid = some r → r.persistent = true →
      r.last_activity + r.ttl_seconds < a →
      ∃ k : Nat, a ≤ t0 + (k : Int) * I ∧ t0 + (k : Int) * I ≤ a + I ∧
        alGet (cleanup_expired_sessions (t0 + (k : Int) * I) e tbl).2 cid = none) ∧
    (∀ (now : Int) (e : Engine) (tbl : Table) (cid : Key) (r : SessionInfo),
      keysNodup tbl → alGet tbl cid = some r → r.persistent = false →
      alGet (cleanup_expired_sessions now e tbl).2 cid = some r) := by
  constructor
  · intro e tbl cid r t0 I a ha hI h0 hget hpers hexp
    obtain ⟨k, hk1, hk2⟩ := exists_tick_in_window t0 a I hI h0
    refine ⟨k, hk1, hk2, ?_⟩
    have hexp2 : sessionExpired (t0 + (k : Int) * I) r = true := by
      simp [sessionExpired, hpers]
      linarith
    have ha2 : ¬ (e.avail = false) := by rw [ha]; simp
    unfold cleanup_expired_sessions
    rw [if_neg ha2]
    exact reapList_removes _ cid r tbl (e, tbl) (alGet_mem tbl cid r hget) hexp2
  · intro now e tbl cid r hnd hget hpers
    by_cases ha : e.avail = false
    · simpa [cleanup_expired_sessions, ha] using hget
    · unfold cleanup_expired_sessions
      rw [if_neg ha]
      apply reapList_keeps now cid r tbl (e, tbl) _ hget
      intro p hp hpc
      have hpr : p.2 = r := by
        have h1 : alGet tbl p.1 = some p.2 := alGet_of_mem_nodup tbl p.1 p.2 hnd (by
          rcases p with ⟨pk, pv⟩
          exact hp)
        rw [hpc] at h1
        rw [hget] at h1
        exact (Option.some.inj h1).symm
      rw [hpr]
      simp [sessionExpired, hpers]

/-- Claim C8 witness: the persistent record `recExp` (ttl 5, inactive
since time 0) on an available engine is evicted by the tick falling in
the window `[50, 50 + CLEANUP_INTERVAL]`; the non-persistent record
`recNp` survives a tick at time 1000. -/
theorem c8_reaper_eviction_witness :
    (∃ k : Nat, (50 : Int) ≤ 0 + (k : Int) * CLEANUP_INTERVAL ∧
      0 + (k : Int) * CLEANUP_INTERVAL ≤ 50 + CLEANUP_INTERVAL ∧
      alGet (cleanup_expired_sessions (0 + (k : Int) * CLEANUP_INTERVAL)
        engUp [("c8", recExp)]).2 "c8" = none) ∧
    alGet (cleanup_expired_sessions 1000 engUp [("c1", recNp)]).2 "c1" = some recNp :=
  ⟨c8_reaper_eviction.1 engUp [("c8", recExp)] "c8" recExp 0 CLEANUP_INTERVAL 50
     rfl (by decide) (by decide) (by decide) rfl (by decide),
   c8_reaper_eviction.2 1000 engUp [("c1", recNp)] "c1" recNp
     (by decide) (by decide) rfl⟩

/-
Claim C9: reported remaining_seconds.
-/

/-- Sample persistent record last touched at time 0 with the maximal ttl
of 3600 seconds. -/
def recDay : SessionInfo :=
  { name := "python-sandbox", persistent := true, ttl_seconds := 3600
  , session_id := "sid-9", started_at := 0, last_activity := 0 }

/-- Claim C9, evaluated at the failing input: one day plus 100 seconds
after the last activity, the endpoints report
`remaining_seconds = 3500` - because `(now - last_activity).seconds` is
the timedelta seconds component, `86500 mod 86400 = 100` - whereas
`max(0, ttl - (now - last_activity))` with the full elapsed time is 0.
The session is long expired yet reported almost fresh. -/
theorem c9_remaining_seconds_bug :
    (list_sessions 86500 [("c9", recDay)]).map SessionView.remaining_seconds = [3500] ∧
    max 0 (recDay.ttl_seconds - (86500 - recDay.last_activity)) = 0 ∧
    (3500 : Int) ≠ 0 := by
  decide

end ContainerManager
